import Mathlib

/-!
Verification of the upload-service core (`src/services/file_service.py`,
`src/models.py`) via a shallow embedding.

The metadata store (SQLAlchemy session) and the byte-storage backend
(fsspec) are collaborators accessed through narrow interfaces; they are
modelled as explicit state: a session is the list of in-memory `FileMeta`
objects it tracks, the storage backend is a key-to-bytes association list
together with a flag saying whether open-for-write raises.  Python
exceptions are modelled with `Except` / explicit error results, and an
attribute that was never assigned is modelled as `none` (reading it raises
`AttributeError`).
-/

set_option autoImplicit false

namespace UploadService

/-- `FileStatus` from `src/models.py`. -/
inductive FileStatus where
  | uploading
  | ok
  | error
  | blocked
  deriving DecidableEq, Repr

/-- The exceptions raised by the service (`src/exceptions.py` is only
imported by name in `src/`; the constructors mirror the imported names)
plus the Python runtime errors the code can raise. -/
inductive Err where
  /-- `BadFileFormatExc` (a VALIDATION / FORMAT error). -/
  | badFileFormat
  /-- `FileTooBigExc` (a VALIDATION / SIZE-LIMIT error). -/
  | fileTooBig
  /-- `FileNotFoundExc` (NOT-FOUND). -/
  | fileNotFound
  /-- `InitServiceExc` (INIT). -/
  | initService
  /-- Python `AttributeError`: reading an attribute that was never assigned. -/
  | attributeError
  /-- Python `TypeError`: e.g. `isinstance` with a subscripted generic. -/
  | typeError
  /-- A failure raised by the storage backend during read / remove. -/
  | storageError
  deriving DecidableEq, Repr

/-- File content: the byte string returned by `file.read()`. -/
abbrev ByteData := List Nat

/-- An in-memory `FileMeta` object (`src/models.py`).  `internal_name` is
NOT a mapped column in `models.py`; it is only ever a transient Python
attribute set by `upload`.  `none` models the attribute being absent
(the code never assigns `None` to it explicitly).  `created_at` and
`updated_at` are server-generated timestamps, irrelevant to every claim,
and are omitted. -/
structure FileMeta where
  id : String
  owner_id : Option String
  name : Option String
  size : Option Int
  content_type : Option String
  status : FileStatus
  internal_name : Option String
  deriving DecidableEq, Repr

/-- The persisted database row of a `FileMeta`: exactly the mapped columns
of `src/models.py` lines 24-40.  There is no `internal_name` column. -/
structure FileMetaRow where
  id : String
  owner_id : Option String
  name : Option String
  size : Option Int
  content_type : Option String
  status : FileStatus
  deriving DecidableEq, Repr

/-- Committing a `FileMeta` persists only its mapped columns. -/
def persistRow (m : FileMeta) : FileMetaRow :=
  { id := m.id, owner_id := m.owner_id, name := m.name, size := m.size,
    content_type := m.content_type, status := m.status }

/-- Loading a row in a fresh session yields an object on which the
`internal_name` attribute was never assigned. -/
def loadMeta (r : FileMetaRow) : FileMeta :=
  { id := r.id, owner_id := r.owner_id, name := r.name, size := r.size,
    content_type := r.content_type, status := r.status,
    internal_name := none }

/-- The spec's record invariant: `internalName` is non-empty iff
`status == OK`. -/
def nameStatusInvariant (m : FileMeta) : Bool :=
  (match m.internal_name with
   | some s => !(s == "")
   | none => false) == decide (m.status = FileStatus.ok)

/-!  ## The MIME table (Python `mimetypes` module state)

`guess_type` / `guess_extension` / `add_type` operate on a table of
(extension, type) pairs.  The table below models the relevant entries of
CPython's built-in default table (`guess_type("a.txt") = "text/plain"`,
`guess_extension("text/plain") = ".txt"`, ...); `add_type` prepends, so a
newly added mapping wins for extension-to-type lookup while
`guess_extension` keeps returning the first-registered extension of a
type, matching `mimetypes`. -/

/-- (extension, MIME type) pairs. -/
abbrev MimeTable := List (String × String)

/-- Modelled subset of CPython's default `mimetypes` table. -/
def defaultMimeTable : MimeTable :=
  [(".txt", "text/plain"), (".html", "text/html"), (".png", "image/png"),
   (".jpg", "image/jpeg"), (".json", "application/json"),
   (".pdf", "application/pdf"), (".bin", "application/octet-stream")]

def strToLower (s : String) : String :=
  String.mk (s.data.map Char.toLower)

/-- Helper for `os.path.splitext` on a bare filename: the extension starts
at the last dot that has some non-dot character before it, and runs to the
end of the name. -/
def extAux : List Char → Bool → Option (List Char) → Option (List Char)
  | [], _, best => best
  | c :: rest, sawNonDot, best =>
    if c = '.' then
      if sawNonDot then extAux rest sawNonDot (some (c :: rest))
      else extAux rest sawNonDot best
    else extAux rest true best

/-- The extension of a filename per `os.path.splitext`
(`splitext "a.txt" = ".txt"`, `splitext ".txt"` has no extension). -/
def extOf (s : String) : Option String :=
  (extAux s.data false none).map String.mk

/-- `mimetypes.guess_type`: split off the extension and look it up
(lower-cased) in the table. -/
def guessType (tbl : MimeTable) (name : String) : Option String :=
  match extOf name with
  | none => none
  | some ext => (tbl.find? (fun p => p.1 == strToLower ext)).map (fun p => p.2)

/-- `mimetypes.guess_extension`: the first-registered extension mapped to
the type. -/
def guessExtension (tbl : MimeTable) (mime : String) : Option String :=
  (tbl.reverse.find? (fun p => p.2 == mime)).map (fun p => p.1)

/-- `mimetypes.add_type doc_type doc_ext`. -/
def addType (tbl : MimeTable) (docType docExt : String) : MimeTable :=
  (docExt, docType) :: tbl

/-!  ## The storage backend (File Store Gateway) -/

/-- The bound `AbstractFileSystem`.  `objects` is the key-to-bytes store;
`writeFails` says whether `open(key, "wb")` / the write raises (the
Registry treats any such failure uniformly). -/
structure Storage where
  objects : List (String × ByteData)
  writeFails : Bool
  deriving DecidableEq, Repr

/-- Look up the object stored at a key. -/
def getObj : List (String × ByteData) → String → Option ByteData
  | [], _ => none
  | (k, v) :: rest, key => if k == key then some v else getObj rest key

/-- `open(key, "wb")` followed by writing `data`: creates or truncates the
object at the key. -/
def putObj (st : Storage) (key : String) (data : ByteData) : Storage :=
  { st with objects := (key, data) :: st.objects }

/-- Remove every entry stored at a key. -/
def rmList : List (String × ByteData) → String → List (String × ByteData)
  | [], _ => []
  | p :: rest, key => if p.1 == key then rmList rest key else p :: rmList rest key

/-- `storage.rm key`: raises if the key is absent, otherwise removes it. -/
def rmObj (st : Storage) (key : String) : Except Err Storage :=
  match getObj st.objects key with
  | none => Except.error Err.storageError
  | some _ => Except.ok { st with objects := rmList st.objects key }

/-!  ## The session (metadata store collaborator) -/

/-- The objects tracked by the session, newest first. -/
abbrev Session := List FileMeta

/-- `session.get(FileMeta, file_id)`: the first tracked object with the
identifier. -/
def sessionGet : Session → String → Option FileMeta
  | [], _ => none
  | m :: rest, fid => if m.id == fid then some m else sessionGet rest fid

/-- Flushing and committing a mutated object: the session's copy with the
same id is replaced. -/
def sessionSet : Session → FileMeta → Session
  | [], _ => []
  | m :: rest, m' => (if m.id == m'.id then m' else m) :: sessionSet rest m'

/-- `session.delete(file_meta)` (plus commit). -/
def sessionDelete : Session → String → Session
  | [], _ => []
  | m :: rest, fid =>
    if m.id == fid then sessionDelete rest fid else m :: sessionDelete rest fid

/-!  ## The FileService (File Registry) -/

/-- The configuration surface of the service: `_max_file_size` and
`_supported_formats`, with their class-level defaults. -/
structure Config where
  max_file_size : Int := 10
  supported_formats : List String := ["*"]
  deriving DecidableEq, Repr

/-- The singleton service's attribute state.  In `src`, the class body has
the bare annotation `_storage: AbstractFileSystem` with no assigned value,
so the attribute does not exist until something assigns it: `storage =
none` models the missing attribute, whose read raises `AttributeError`. -/
structure ServiceState where
  storage : Option Storage
  max_file_size : Int
  supported_formats : List String
  deriving DecidableEq, Repr

/-- A freshly constructed `FileService()`. -/
def freshService : ServiceState :=
  { storage := none, max_file_size := 10, supported_formats := ["*"] }

/-- `FileService.set_storage`, exactly as written: it first evaluates
`self._storage is not None`.  On a fresh service the `_storage` attribute
was never assigned, so that read raises `AttributeError`; if the attribute
exists the method raises `InitServiceExc`. -/
def set_storage (st : ServiceState) (value : Storage) : Except Err ServiceState :=
  match st.storage with
  | none => Except.error Err.attributeError
  | some _ =>
    let _ := value
    Except.error Err.initService

/-- `set_storage` as the repository's own test `test_set_storage_twice`
and the spec expect it to behave: the first binding succeeds, rebinding
raises `InitServiceExc` and leaves the binding unchanged.  This is the
code with `_storage` given a `None` initial value. -/
def set_storage_intended (st : ServiceState) (value : Storage) :
    Except Err ServiceState :=
  match st.storage with
  | none => Except.ok { st with storage := some value }
  | some _ => Except.error Err.initService

/-- An element of the list accepted by `set_supported_formats`: a plain
MIME type string or a `(type, extension)` pair. -/
inductive FormatSpec where
  | plain (t : String)
  | pair (t : String) (e : String)
  deriving DecidableEq, Repr

/-- `FileService.set_supported_formats`, exactly as written: the loop body
evaluates `isinstance(v, Tuple[str, str])` on each element, and
`isinstance` with a subscripted generic raises `TypeError` in Python, so
any non-empty list raises before `self._supported_formats` is assigned;
the empty list assigns the empty format list. -/
def set_supported_formats (cfg : Config) (tbl : MimeTable)
    (value : List FormatSpec) : Except Err (Config × MimeTable) :=
  match value with
  | [] => Except.ok ({ cfg with supported_formats := [] }, tbl)
  | _ :: _ => Except.error Err.typeError

/-- `set_supported_formats` as its docstring intends it (with
`isinstance(v, tuple)`): plain entries are appended to the format list; a
`(type, extension)` pair is checked with `guess_type(extension)` and, when
that is `None`, registers the mapping and appends the type.  (On a bare
`".ext"` string `guess_type` finds no extension, so such pairs always
count as unknown.) -/
def set_supported_formats_intended (tbl : MimeTable)
    (value : List FormatSpec) : List String × MimeTable :=
  match value with
  | [] => ([], tbl)
  | FormatSpec.plain t :: rest =>
    let (fs, tbl') := set_supported_formats_intended tbl rest
    (t :: fs, tbl')
  | FormatSpec.pair t e :: rest =>
    match guessType tbl e with
    | none =>
      let (fs, tbl') := set_supported_formats_intended (addType tbl t e) rest
      (t :: fs, tbl')
    | some _ => set_supported_formats_intended tbl rest

/-- `FileService._get_uuid_file_name`.  `if not mime_type` is also true
for the empty string. -/
def get_uuid_file_name (tbl : MimeTable) (file_id : String)
    (mime_type : Option String) : String :=
  match mime_type with
  | none => file_id
  | some t =>
    if t = "" then file_id
    else if t = "application/octet-stream" then file_id ++ ".bin"
    else file_id ++ (guessExtension tbl t).getD ""

/-- The input of one `upload` call: `file.read()`'s bytes and the declared
name / owner / size / content type. -/
structure UploadInput where
  content : ByteData
  name : Option String
  user_id : Option String
  size : Option Int
  content_type : Option String
  deriving DecidableEq, Repr

/-- `upload`'s content-type resolution: the caller-supplied value, else
`guess_type(name)` when a name was given. -/
def resolveContentType (tbl : MimeTable) (input : UploadInput) : Option String :=
  match input.content_type with
  | some t => some t
  | none =>
    match input.name with
    | some n => guessType tbl n
    | none => none

/-- `upload`'s format check: rejected when the wildcard is absent, a
content type was resolved, and it is not in the supported set. -/
def formatRejected (cfg : Config) (ct : Option String) : Bool :=
  !cfg.supported_formats.contains "*" &&
    (match ct with
     | none => false
     | some t => !cfg.supported_formats.contains t)

/-- `upload`'s size check: rejected when a size was declared and exceeds
the maximum. -/
def sizeRejected (cfg : Config) (sz : Option Int) : Bool :=
  match sz with
  | none => false
  | some s => decide (s > cfg.max_file_size)

/-- `FileService.upload` (`file_service.py` lines 84-132), acting on a
bound storage backend and a session.  `newId` is the `uuid4` primary key
minted for the new row.  Validation failures raise before anything is
written; then the `FileMeta` is added and committed with status
`UPLOADING`; then the storage write either fails (caught: status becomes
`ERROR`) or succeeds (status `OK`, `internal_name` assigned); the final
object is flushed and committed and returned. -/
def upload (tbl : MimeTable) (cfg : Config) (storage : Storage)
    (session : Session) (newId : String) (input : UploadInput) :
    Except Err FileMeta × Session × Storage :=
  let contentType := resolveContentType tbl input
  if formatRejected cfg contentType then
    (Except.error Err.badFileFormat, session, storage)
  else if sizeRejected cfg input.size then
    (Except.error Err.fileTooBig, session, storage)
  else
    let meta : FileMeta :=
      { id := newId, owner_id := input.user_id, name := input.name,
        size := input.size, content_type := contentType,
        status := FileStatus.uploading, internal_name := none }
    let session1 := meta :: session
    let iname := get_uuid_file_name tbl meta.id meta.content_type
    if storage.writeFails then
      let meta' := { meta with status := FileStatus.error }
      (Except.ok meta', sessionSet session1 meta', storage)
    else
      let meta' := { meta with status := FileStatus.ok,
                               internal_name := some iname }
      (Except.ok meta', sessionSet session1 meta', putObj storage iname input.content)

/-- `FileService.get_info`. -/
def get_info (session : Session) (fid : String) : Except Err FileMeta :=
  match sessionGet session fid with
  | none => Except.error Err.fileNotFound
  | some m => Except.ok m

/-- `FileService.get_file`: loads the record, rejects the non-servable
statuses with `FileNotFoundExc`, then opens `internal_name` for reading
(reading the never-assigned attribute raises `AttributeError`; opening a
missing key raises in the backend).  The result is the streamed bytes. -/
def get_file (storage : Storage) (session : Session) (fid : String) :
    Except Err ByteData :=
  match sessionGet session fid with
  | none => Except.error Err.fileNotFound
  | some m =>
    if m.status = FileStatus.uploading ∨ m.status = FileStatus.error ∨
        m.status = FileStatus.blocked then
      Except.error Err.fileNotFound
    else
      match m.internal_name with
      | none => Except.error Err.attributeError
      | some k =>
        match getObj storage.objects k with
        | none => Except.error Err.storageError
        | some data => Except.ok data

/-- `FileService.delete`: loads the record (NOT-FOUND if absent), reads
`internal_name` (raises `AttributeError` if never assigned), removes the
storage object (backend failure propagates, leaving the row in place),
then removes the row. -/
def delete (storage : Storage) (session : Session) (fid : String) :
    Except Err Unit × Session × Storage :=
  match sessionGet session fid with
  | none => (Except.error Err.fileNotFound, session, storage)
  | some m =>
    match m.internal_name with
    | none => (Except.error Err.attributeError, session, storage)
    | some k =>
      match rmObj storage k with
      | Except.error e => (Except.error e, session, storage)
      | Except.ok storage' => (Except.ok (), sessionDelete session fid, storage')

/-!  ## Concrete inputs used to exercise the model -/

/-- The spec's example configuration: `maxSize=10`, `formats={"*"}`. -/
def exCfg : Config := { max_file_size := 10, supported_formats := ["*"] }

/-- An empty, functioning storage backend. -/
def exStorage : Storage := { objects := [], writeFails := false }

/-- A non-wildcard allow-list containing only `image/png`. -/
def exCfgPng : Config := { max_file_size := 10, supported_formats := ["image/png"] }

/-- An upload with no declared name and no declared content type, so no
content type can be resolved. -/
def exInputNoType : UploadInput :=
  { content := [1, 2, 3], name := none, user_id := none, size := none,
    content_type := none }

/-- A storage backend whose open-for-write raises. -/
def exStorageBad : Storage := { objects := [], writeFails := true }

/-- A `BLOCKED` record with an assigned internal name. -/
def exBlockedMeta : FileMeta :=
  { id := "b1", owner_id := none, name := none, size := none,
    content_type := none, status := FileStatus.blocked,
    internal_name := some "b1.bin" }

/-- A storage backend that does hold an object at the blocked record's
key. -/
def exStorageB : Storage :=
  { objects := [("b1.bin", [9, 9])], writeFails := false }

/-- An `ERROR` record: its `internal_name` attribute was never assigned. -/
def errMeta : FileMeta :=
  { id := "e1", owner_id := none, name := none, size := none,
    content_type := none, status := FileStatus.error, internal_name := none }

/-- An `OK` record with its assigned internal name. -/
def exOkMeta : FileMeta :=
  { id := "o1", owner_id := none, name := none, size := none,
    content_type := none, status := FileStatus.ok,
    internal_name := some "o1.txt" }

/-- A storage backend holding the `OK` record's object. -/
def exStorageO : Storage :=
  { objects := [("o1.txt", [1, 2])], writeFails := false }

/-- A concrete `uuid4` primary key. -/
def exId : String := "123e4567-e89b-12d3-a456-426614174000"

/-- The spec's example upload: `name="a.txt"`, `content=b"data"`,
`size=4`, no declared content type. -/
def exInput : UploadInput :=
  { content := [100, 97, 116, 97], name := some "a.txt", user_id := none,
    size := some 4, content_type := none }

/-- The record the example upload returns. -/
def exMeta : FileMeta :=
  { id := exId, owner_id := none, name := some "a.txt", size := some 4,
    content_type := some "text/plain", status := FileStatus.ok,
    internal_name := some (exId ++ ".txt") }

/-!  ## Helper lemmas -/

theorem str_append_ne_empty (s t : String) (h : s ≠ "") : s ++ t ≠ "" := by
  intro hc
  apply h
  have h2 := congrArg String.length hc
  rw [String.length_append] at h2
  have h0 : ("" : String).length = 0 := rfl
  rw [h0] at h2
  have h3 : s.length = 0 := by omega
  exact String.ext (by simpa [String.length] using List.length_eq_zero.mp h3)

theorem get_uuid_file_name_ne_empty (tbl : MimeTable) (fid : String)
    (mt : Option String) (h : fid ≠ "") :
    get_uuid_file_name tbl fid mt ≠ "" := by
  cases mt with
  | none => exact h
  | some t =>
    simp only [get_uuid_file_name]
    split_ifs
    · exact h
    · exact str_append_ne_empty fid ".bin" h
    · exact str_append_ne_empty fid _ h

theorem getObj_put_self (st : Storage) (k : String) (v : ByteData) :
    getObj (putObj st k v).objects k = some v := by
  simp [putObj, getObj]

theorem getObj_rmList_self (os : List (String × ByteData)) (k : String) :
    getObj (rmList os k) k = none := by
  induction os with
  | nil => rfl
  | cons p rest ih =>
    by_cases h : p.1 = k
    · simpa [rmList, h] using ih
    · simpa [rmList, getObj, h] using ih

theorem sessionGet_delete_self (session : Session) (fid : String) :
    sessionGet (sessionDelete session fid) fid = none := by
  induction session with
  | nil => rfl
  | cons m rest ih =>
    by_cases h : m.id = fid
    · simpa [sessionDelete, h] using ih
    · simpa [sessionDelete, sessionGet, h] using ih

/-- The row `upload` creates before writing any byte. -/
def uploadMeta (tbl : MimeTable) (newId : String) (input : UploadInput) :
    FileMeta :=
  { id := newId, owner_id := input.user_id, name := input.name,
    size := input.size, content_type := resolveContentType tbl input,
    status := FileStatus.uploading, internal_name := none }

/-- The storage key `upload` derives for the new row. -/
def uploadIName (tbl : MimeTable) (newId : String) (input : UploadInput) :
    String :=
  get_uuid_file_name tbl newId (resolveContentType tbl input)

/-- The row as `upload` leaves it when the storage write raises. -/
def uploadErrMeta (tbl : MimeTable) (newId : String) (input : UploadInput) :
    FileMeta :=
  { uploadMeta tbl newId input with status := FileStatus.error }

/-- The row as `upload` leaves it when the storage write succeeds. -/
def uploadOkMeta (tbl : MimeTable) (newId : String) (input : UploadInput) :
    FileMeta :=
  { uploadMeta tbl newId input with
    status := FileStatus.ok
    internal_name := some (uploadIName tbl newId input) }

theorem upload_of_format_rejected (tbl : MimeTable) (cfg : Config)
    (storage : Storage) (session : Session) (newId : String)
    (input : UploadInput)
    (hf : formatRejected cfg (resolveContentType tbl input) = true) :
    upload tbl cfg storage session newId input =
      (Except.error Err.badFileFormat, session, storage) := by
  simp [upload, hf]

theorem upload_of_size_rejected (tbl : MimeTable) (cfg : Config)
    (storage : Storage) (session : Session) (newId : String)
    (input : UploadInput)
    (hf : formatRejected cfg (resolveContentType tbl input) = false)
    (hs : sizeRejected cfg input.size = true) :
    upload tbl cfg storage session newId input =
      (Except.error Err.fileTooBig, session, storage) := by
  simp [upload, hf, hs]

theorem upload_of_write_failure (tbl : MimeTable) (cfg : Config)
    (storage : Storage) (session : Session) (newId : String)
    (input : UploadInput)
    (hf : formatRejected cfg (resolveContentType tbl input) = false)
    (hs : sizeRejected cfg input.size = false)
    (hw : storage.writeFails = true) :
    upload tbl cfg storage session newId input =
      (Except.ok (uploadErrMeta tbl newId input),
       sessionSet (uploadMeta tbl newId input :: session)
         (uploadErrMeta tbl newId input),
       storage) := by
  simp [upload, hf, hs, hw, uploadMeta, uploadErrMeta]

theorem upload_of_write_success (tbl : MimeTable) (cfg : Config)
    (storage : Storage) (session : Session) (newId : String)
    (input : UploadInput)
    (hf : formatRejected cfg (resolveContentType tbl input) = false)
    (hs : sizeRejected cfg input.size = false)
    (hw : storage.writeFails = false) :
    upload tbl cfg storage session newId input =
      (Except.ok (uploadOkMeta tbl newId input),
       sessionSet (uploadMeta tbl newId input :: session)
         (uploadOkMeta tbl newId input),
       putObj storage (uploadIName tbl newId input) input.content) := by
  simp [upload, hf, hs, hw, uploadMeta, uploadIName, uploadOkMeta]

/-!  ## The claims -/

/-- Claim C8: the derived `internalName` is the id alone when the resolved
type is unset, the id plus `".bin"` for `application/octet-stream`, and
otherwise the id plus the MIME-table extension (empty when the type is
unknown to the table); in particular, for name `"a.txt"` with no declared
type it is the id plus `".txt"`. -/
theorem internal_name_derivation (tbl : MimeTable) (fid : String) (t : String)
    (hoct : t ≠ "application/octet-stream") (hne : t ≠ "") :
    get_uuid_file_name tbl fid none = fid ∧
    get_uuid_file_name tbl fid (some "application/octet-stream") = fid ++ ".bin" ∧
    get_uuid_file_name tbl fid (some t) = fid ++ (guessExtension tbl t).getD "" ∧
    get_uuid_file_name defaultMimeTable fid (guessType defaultMimeTable "a.txt")
      = fid ++ ".txt" := by
  refine ⟨rfl, ?_, ?_, ?_⟩
  · simp [get_uuid_file_name]
  · simp [get_uuid_file_name, hne, hoct]
  · have hg : guessType defaultMimeTable "a.txt" = some "text/plain" := rfl
    rw [hg]
    have he : guessExtension defaultMimeTable "text/plain" = some ".txt" := rfl
    simp [get_uuid_file_name, he]

/-- Witness for C8 at a concrete table, id and MIME type. -/
theorem internal_name_derivation_witness :
    (("application/pdf" : String) ≠ "application/octet-stream" ∧
     ("application/pdf" : String) ≠ "") ∧
    (get_uuid_file_name defaultMimeTable "f" none = "f" ∧
     get_uuid_file_name defaultMimeTable "f" (some "application/octet-stream")
       = "f" ++ ".bin" ∧
     get_uuid_file_name defaultMimeTable "f" (some "application/pdf")
       = "f" ++ (guessExtension defaultMimeTable "application/pdf").getD "" ∧
     get_uuid_file_name defaultMimeTable "f" (guessType defaultMimeTable "a.txt")
       = "f" ++ ".txt") :=
  ⟨by decide,
   internal_name_derivation defaultMimeTable "f" "application/pdf"
     (by decide) (by decide)⟩

/-- Claim C3: an upload whose resolved content type is absent from a
non-wildcard supported-format set raises the FORMAT validation error and
leaves both the session and the storage backend exactly as they were. -/
theorem upload_unsupported_format (tbl : MimeTable) (cfg : Config)
    (storage : Storage) (session : Session) (newId : String)
    (input : UploadInput) (t : String)
    (hw : "*" ∉ cfg.supported_formats)
    (ht : resolveContentType tbl input = some t)
    (hmem : t ∉ cfg.supported_formats) :
    upload tbl cfg storage session newId input =
      (Except.error Err.badFileFormat, session, storage) := by
  have hfr : formatRejected cfg (resolveContentType tbl input) = true := by
    simp [formatRejected, ht]
    exact ⟨hw, hmem⟩
  exact upload_of_format_rejected tbl cfg storage session newId input hfr

/-- Witness for C3: uploading a `text/plain` file against the allow-list
`{"image/png"}`. -/
theorem upload_unsupported_format_witness :
    (exCfgPng.supported_formats.contains "*" = false ∧
     resolveContentType defaultMimeTable exInput = some "text/plain" ∧
     exCfgPng.supported_formats.contains "text/plain" = false) ∧
    upload defaultMimeTable exCfgPng exStorage [] exId exInput =
      (Except.error Err.badFileFormat, [], exStorage) :=
  ⟨⟨by decide, by decide, by decide⟩,
   upload_unsupported_format defaultMimeTable exCfgPng exStorage [] exId exInput
     "text/plain" (by decide) (by decide) (by decide)⟩

/-- Claim C10: when no content type is resolved (none declared, none
guessed from the name), the format validation is skipped: the upload is
never rejected with the FORMAT error, wildcard or not. -/
theorem upload_skips_format_check_without_type (tbl : MimeTable)
    (cfg : Config) (storage : Storage) (session : Session) (newId : String)
    (input : UploadInput)
    (hres : resolveContentType tbl input = none) :
    (upload tbl cfg storage session newId input).1 ≠
      Except.error Err.badFileFormat := by
  have hfr : formatRejected cfg (resolveContentType tbl input) = false := by
    simp [formatRejected, hres]
  by_cases hs : sizeRejected cfg input.size = true
  · rw [upload_of_size_rejected tbl cfg storage session newId input hfr hs]
    simp
  · rw [Bool.not_eq_true] at hs
    by_cases hw : storage.writeFails = true
    · rw [upload_of_write_failure tbl cfg storage session newId input hfr hs hw]
      simp
    · rw [Bool.not_eq_true] at hw
      rw [upload_of_write_success tbl cfg storage session newId input hfr hs hw]
      simp

/-- Claim C1: an upload whose resolved content type passes the (possibly
wildcard) allow-list and whose declared size does not exceed the maximum
returns a status `OK` record with a non-empty `internalName`, and the
storage backend then holds exactly the submitted bytes at that key. -/
theorem upload_success_ok (tbl : MimeTable) (cfg : Config) (storage : Storage)
    (session : Session) (newId : String) (input : UploadInput)
    (hfmt : "*" ∈ cfg.supported_formats ∨
            ∃ t, resolveContentType tbl input = some t ∧
                 t ∈ cfg.supported_formats)
    (hsize : sizeRejected cfg input.size = false)
    (hw : storage.writeFails = false)
    (hid : newId ≠ "") :
    ∃ m, (upload tbl cfg storage session newId input).1 = Except.ok m ∧
      m.status = FileStatus.ok ∧
      ∃ k, m.internal_name = some k ∧ k ≠ "" ∧
        getObj ((upload tbl cfg storage session newId input).2.2).objects k
          = some input.content := by
  have hfr : formatRejected cfg (resolveContentType tbl input) = false := by
    rcases hfmt with h | ⟨t, ht, hmem⟩
    · simp [formatRejected, h]
    · simp [formatRejected, ht, hmem]
  have he := upload_of_write_success tbl cfg storage session newId input
    hfr hsize hw
  refine ⟨uploadOkMeta tbl newId input, by rw [he], rfl,
          uploadIName tbl newId input, rfl, ?_, ?_⟩
  · exact get_uuid_file_name_ne_empty tbl newId _ hid
  · rw [he]
    exact getObj_put_self storage _ input.content

/-- Witness for C1: the spec's example upload (`name="a.txt"`,
`content=b"data"`, `size=4`, `maxSize=10`, `formats={"*"}`). -/
theorem upload_success_ok_witness :
    ("*" ∈ exCfg.supported_formats ∧ sizeRejected exCfg exInput.size = false ∧
     exStorage.writeFails = false ∧ exId ≠ "") ∧
    (∃ m, (upload defaultMimeTable exCfg exStorage [] exId exInput).1
        = Except.ok m ∧
      m.status = FileStatus.ok ∧
      ∃ k, m.internal_name = some k ∧ k ≠ "" ∧
        getObj ((upload defaultMimeTable exCfg exStorage [] exId
            exInput).2.2).objects k = some exInput.content) :=
  ⟨⟨by decide, by decide, rfl, by decide⟩,
   upload_success_ok defaultMimeTable exCfg exStorage [] exId exInput
     (Or.inl (by decide)) (by decide) rfl (by decide)⟩

/-- Claim C2: when the storage backend raises on open or write, `upload`
still returns a record (no exception escapes), with status `ERROR` and no
`internalName`; the record with its final `ERROR` status is in the
committed session, and the storage backend is untouched. -/
theorem upload_storage_failure (tbl : MimeTable) (cfg : Config)
    (storage : Storage) (session : Session) (newId : String)
    (input : UploadInput)
    (hf : formatRejected cfg (resolveContentType tbl input) = false)
    (hs : sizeRejected cfg input.size = false)
    (hw : storage.writeFails = true) :
    ∃ m, (upload tbl cfg storage session newId input).1 = Except.ok m ∧
      m.status = FileStatus.error ∧ m.internal_name = none ∧
      m ∈ (upload tbl cfg storage session newId input).2.1 ∧
      (upload tbl cfg storage session newId input).2.2 = storage := by
  have he := upload_of_write_failure tbl cfg storage session newId input
    hf hs hw
  refine ⟨uploadErrMeta tbl newId input, by rw [he], rfl, rfl, ?_, by rw [he]⟩
  rw [he]
  simp [sessionSet, uploadMeta, uploadErrMeta]

/-- Witness for C2: the example upload against a backend whose write
raises. -/
theorem upload_storage_failure_witness :
    (formatRejected exCfg (resolveContentType defaultMimeTable exInput)
       = false ∧
     sizeRejected exCfg exInput.size = false ∧
     exStorageBad.writeFails = true) ∧
    (∃ m, (upload defaultMimeTable exCfg exStorageBad [] exId exInput).1
        = Except.ok m ∧
      m.status = FileStatus.error ∧ m.internal_name = none ∧
      m ∈ (upload defaultMimeTable exCfg exStorageBad [] exId exInput).2.1 ∧
      (upload defaultMimeTable exCfg exStorageBad [] exId exInput).2.2
        = exStorageBad) :=
  ⟨⟨by decide, by decide, rfl⟩,
   upload_storage_failure defaultMimeTable exCfg exStorageBad [] exId exInput
     (by decide) (by decide) rfl⟩

/-- Claim C4: `get_file` on a record whose status is `UPLOADING`, `ERROR`
or `BLOCKED` fails with NOT-FOUND, whatever the storage backend holds; and
whenever `get_file` yields a stream the record's status is `OK`. -/
theorem get_file_unservable (storage : Storage) (session : Session)
    (fid : String) (m : FileMeta)
    (hget : sessionGet session fid = some m) :
    ((m.status = FileStatus.uploading ∨ m.status = FileStatus.error ∨
        m.status = FileStatus.blocked) →
      get_file storage session fid = Except.error Err.fileNotFound) ∧
    (∀ d, get_file storage session fid = Except.ok d →
      m.status = FileStatus.ok) := by
  constructor
  · intro hst
    simp [get_file, hget, hst]
  · intro d hd
    cases hstat : m.status with
    | ok => rfl
    | uploading => simp [get_file, hget, hstat] at hd
    | error => simp [get_file, hget, hstat] at hd
    | blocked => simp [get_file, hget, hstat] at hd

/-- Witness for C4: a `BLOCKED` record whose key does hold a storage
object is still NOT-FOUND. -/
theorem get_file_unservable_witness :
    sessionGet [exBlockedMeta] "b1" = some exBlockedMeta ∧
    getObj exStorageB.objects "b1.bin" = some [9, 9] ∧
    (((exBlockedMeta.status = FileStatus.uploading ∨
        exBlockedMeta.status = FileStatus.error ∨
        exBlockedMeta.status = FileStatus.blocked) →
       get_file exStorageB [exBlockedMeta] "b1"
         = Except.error Err.fileNotFound) ∧
     (∀ d, get_file exStorageB [exBlockedMeta] "b1" = Except.ok d →
       exBlockedMeta.status = FileStatus.ok)) :=
  ⟨by decide, by decide,
   get_file_unservable exStorageB [exBlockedMeta] "b1" exBlockedMeta
     (by decide)⟩

/-- Claim C5 (refuting the code): `models.py` gives `FileMeta` no
`internal_name` column, so the name assigned by a successful upload lives
only on the in-memory object; the persisted row of the spec's example
upload reloads with status `OK` and no `internalName`, violating the
invariant that `internalName` is non-empty iff `status == OK`. -/
theorem internal_name_not_persisted :
    (upload defaultMimeTable exCfg exStorage [] exId exInput).1
      = Except.ok exMeta ∧
    exMeta.status = FileStatus.ok ∧
    nameStatusInvariant exMeta = true ∧
    (loadMeta (persistRow exMeta)).status = FileStatus.ok ∧
    nameStatusInvariant (loadMeta (persistRow exMeta)) = false := by
  refine ⟨rfl, rfl, rfl, rfl, rfl⟩

/-- Counterexample to C6 as stated: deleting an existing `ERROR` record
raises `AttributeError` (its `internal_name` attribute was never
assigned), removes nothing, and `get_info` still finds the row. -/
theorem delete_any_status_counterexample :
    sessionGet [errMeta] "e1" = some errMeta ∧
    (delete exStorage [errMeta] "e1").1 = Except.error Err.attributeError ∧
    (delete exStorage [errMeta] "e1").2.1 = [errMeta] ∧
    get_info (delete exStorage [errMeta] "e1").2.1 "e1"
      = Except.ok errMeta := by
  refine ⟨rfl, rfl, rfl, rfl⟩

/-- Claim C6 as amended: for an existing record whose `internal_name` is
assigned and whose key holds a storage object, `delete` removes the
storage object and the metadata row, after which `get_info` fails with
NOT-FOUND; `delete` on an absent identifier fails with NOT-FOUND and
changes nothing; and storage removal comes first: if the backend's remove
raises, the metadata row is retained. -/
theorem delete_spec (storage : Storage) (session : Session) (fid : String)
    (m : FileMeta) (k : String) (d : ByteData)
    (hget : sessionGet session fid = some m)
    (hname : m.internal_name = some k)
    (hobj : getObj storage.objects k = some d) :
    ((delete storage session fid).1 = Except.ok () ∧
     getObj ((delete storage session fid).2.2).objects k = none ∧
     get_info ((delete storage session fid).2.1) fid
       = Except.error Err.fileNotFound) ∧
    (∀ fid2, sessionGet session fid2 = none →
      delete storage session fid2
        = (Except.error Err.fileNotFound, session, storage)) ∧
    (∀ st2 : Storage, getObj st2.objects k = none →
      (delete st2 session fid).1 = Except.error Err.storageError ∧
      (delete st2 session fid).2.1 = session) := by
  have hrm : rmObj storage k
      = Except.ok { storage with objects := rmList storage.objects k } := by
    simp [rmObj, hobj]
  refine ⟨⟨?_, ?_, ?_⟩, ?_, ?_⟩
  · simp [delete, hget, hname, hrm]
  · simp [delete, hget, hname, hrm, getObj_rmList_self]
  · simp [delete, hget, hname, hrm, get_info, sessionGet_delete_self]
  · intro fid2 h2
    simp [delete, h2]
  · intro st2 h2
    have hrm2 : rmObj st2 k = Except.error Err.storageError := by
      simp [rmObj, h2]
    constructor <;> simp [delete, hget, hname, hrm2]

/-- Witness for the amended C6: deleting an `OK` record whose object is in
storage. -/
theorem delete_spec_witness :
    (sessionGet [exOkMeta] "o1" = some exOkMeta ∧
     exOkMeta.internal_name = some "o1.txt" ∧
     getObj exStorageO.objects "o1.txt" = some [1, 2]) ∧
    (((delete exStorageO [exOkMeta] "o1").1 = Except.ok () ∧
      getObj ((delete exStorageO [exOkMeta] "o1").2.2).objects "o1.txt"
        = none ∧
      get_info ((delete exStorageO [exOkMeta] "o1").2.1) "o1"
        = Except.error Err.fileNotFound) ∧
     (∀ fid2, sessionGet [exOkMeta] fid2 = none →
       delete exStorageO [exOkMeta] fid2
         = (Except.error Err.fileNotFound, [exOkMeta], exStorageO)) ∧
     (∀ st2 : Storage, getObj st2.objects "o1.txt" = none →
       (delete st2 [exOkMeta] "o1").1 = Except.error Err.storageError ∧
       (delete st2 [exOkMeta] "o1").2.1 = [exOkMeta])) :=
  ⟨⟨rfl, rfl, rfl⟩,
   delete_spec exStorageO [exOkMeta] "o1" exOkMeta "o1.txt" [1, 2]
     rfl rfl rfl⟩

/-- Claim C7 (refuting the code): `_storage` is a bare annotation with no
assigned value, so the very first `set_storage` raises `AttributeError`
when it evaluates `self._storage is not None`; with the `None` initial
value the code and its test presuppose, the first binding succeeds and
rebinding raises `InitServiceExc` leaving the binding unchanged. -/
theorem set_storage_first_binding_raises :
    set_storage freshService exStorage = Except.error Err.attributeError ∧
    set_storage_intended freshService exStorage
      = Except.ok { freshService with storage := some exStorage } ∧
    set_storage_intended { freshService with storage := some exStorage }
      exStorageBad = Except.error Err.initService := by
  refine ⟨rfl, rfl, rfl⟩

/-- Claim C9 (refuting the code): `set_supported_formats` evaluates
`isinstance(v, Tuple[str, str])` on each element, which raises
`TypeError` for every element, so any non-empty list raises and no format
is ever registered; with the docstring's intended `isinstance(v, tuple)`,
plain entries join the supported set and an unknown (type, extension)
pair registers its MIME mapping and joins the set. -/
theorem set_supported_formats_raises_typeerror :
    set_supported_formats exCfg defaultMimeTable [FormatSpec.plain "image/png"]
      = Except.error Err.typeError ∧
    (set_supported_formats_intended defaultMimeTable
       [FormatSpec.plain "image/png",
        FormatSpec.pair "application/custom" ".custom_format"]).1
      = ["image/png", "application/custom"] ∧
    guessType (set_supported_formats_intended defaultMimeTable
       [FormatSpec.plain "image/png",
        FormatSpec.pair "application/custom" ".custom_format"]).2
      "x.custom_format" = some "application/custom" := by
  refine ⟨rfl, rfl, rfl⟩

/-- Witness for C10: an upload with nothing to resolve a content type
from, against the non-wildcard allow-list `{"image/png"}`, is not
rejected with the FORMAT error. -/
theorem upload_skips_format_check_without_type_witness :
    resolveContentType defaultMimeTable exInputNoType = none ∧
    (upload defaultMimeTable exCfgPng exStorage [] exId exInputNoType).1 ≠
      Except.error Err.badFileFormat :=
  ⟨rfl,
   upload_skips_format_check_without_type defaultMimeTable exCfgPng exStorage
     [] exId exInputNoType rfl⟩

end UploadService
